import Mathlib

/-!
Shallow embedding of the nhoyscript backend (src/backend/app.py):
request bodies as string association lists, sessions as the boolean
flags the Flask session carries, the Mongo collections as lists of
documents keyed by object ids modelled as natural numbers, and the
four request handlers (login, scripts, accounts, notify) as pure
functions from session, store and request to a result record that
carries the HTTP status, the JSON body, the store after the request
and the Telegram notification message the handler would send.
-/

namespace Nhoy

/-- Request bodies: `request.get_json(silent=True)` yields `none` when the
body is absent or not valid JSON, otherwise a JSON object modelled as an
association list from field name to string value. -/
abbrev JsonBody := List (String × String)

/-- Python `data.get(k)`: the value at key `k`, if present. -/
def getVal (d : JsonBody) (k : String) : Option String :=
  (d.find? (fun p => p.1 == k)).map (fun p => p.2)

/-- Python `k in data`: key presence. -/
def hasKey (d : JsonBody) (k : String) : Bool :=
  (getVal d k).isSome

/-- Flask session state used by the app: the `is_admin` flag read by
`check_admin_auth`, and the `permanent` mark set on login. -/
structure Session where
  is_admin : Bool
  permanent : Bool
deriving DecidableEq, Repr

/-- The auth helper `check_admin_auth`: `session.get("is_admin") is True`. -/
def check_admin_auth (s : Session) : Bool := s.is_admin

/-- Hex digit character for a value below 16, lower case as in BSON. -/
def hexChar (n : Nat) : Char :=
  if n < 10 then Char.ofNat (48 + n) else Char.ofNat (87 + n)

/-- Numeric value of a hex digit character. -/
def hexVal (c : Char) : Nat :=
  if 48 ≤ c.toNat ∧ c.toNat ≤ 57 then c.toNat - 48
  else if 97 ≤ c.toNat ∧ c.toNat ≤ 102 then c.toNat - 87
  else if 65 ≤ c.toNat ∧ c.toNat ≤ 70 then c.toNat - 55
  else 0

/-- Is the character a hex digit (either case), as BSON `ObjectId` accepts. -/
def isHexCh (c : Char) : Bool :=
  (48 ≤ c.toNat && c.toNat ≤ 57) ||
  (97 ≤ c.toNat && c.toNat ≤ 102) ||
  (65 ≤ c.toNat && c.toNat ≤ 70)

/-- Big-endian hex rendering of width `w`: the string form of an object id
(`str(ObjectId)` is 24 hex characters). -/
def toHexChList : Nat → Nat → List Char
  | 0, _ => []
  | w + 1, n => toHexChList w (n / 16) ++ [hexChar (n % 16)]

/-- The coercion `str(s["_id"])` applied when listing records. -/
def idToStr (n : Nat) : String := String.mk (toHexChList 24 n)

/-- Fold a hex digit string back to its numeric value. -/
def hexFold (l : List Char) : Nat :=
  l.foldl (fun a c => a * 16 + hexVal c) 0

/-- The `ObjectId(s)` constructor: succeeds exactly on 24-character hex
strings (else `InvalidId` is raised), yielding the id's numeric value. -/
def parseObjectId (s : String) : Option Nat :=
  if s.length = 24 ∧ s.data.all isHexCh then some (hexFold s.data) else none

/-- A stored script document: the three fields written by the handler. -/
structure ScriptFields where
  title : String
  image : String
  key : String
deriving DecidableEq, Repr

/-- The `scripts` Mongo collection together with the generator of the next
object id (object ids are store generated and live below `16 ^ 24`). -/
structure ScriptStore where
  nextId : Nat
  docs : List (Nat × ScriptFields)
deriving DecidableEq, Repr

/-- A stored account document: the five fields written by the handler. -/
structure AccountFields where
  name : String
  image : String
  username : String
  password : String
  accentColor : String
deriving DecidableEq, Repr

/-- The `accounts` Mongo collection with its id generator. -/
structure AccountStore where
  nextId : Nat
  docs : List (Nat × AccountFields)
deriving DecidableEq, Repr

/-- HTTP method of a request reaching the scripts or accounts handler. -/
inductive Method where
  | GET | POST | PUT | DELETE
deriving DecidableEq, Repr

/-- JSON response body of the scripts handler. -/
inductive ScriptsRespBody where
  | listing (items : List (String × ScriptFields))
  | message (m : String)
  | created (m : String) (script : String × ScriptFields)
deriving DecidableEq, Repr

/-- Result of one scripts request: status, body, store after, notification. -/
structure ScriptsResult where
  status : Nat
  body : ScriptsRespBody
  store : ScriptStore
  notification : Option String
deriving DecidableEq, Repr

/-- The `scripts` route handler (`GET/POST /api/scripts`,
`PUT/DELETE /api/scripts/<script_id>`). -/
def scripts (sess : Session) (store : ScriptStore) (method : Method)
    (script_id : Option String) (reqBody : Option JsonBody) : ScriptsResult :=
  if method = Method.GET then
    { status := 200,
      body := ScriptsRespBody.listing
        (store.docs.map (fun d => (idToStr d.1, d.2))),
      store := store, notification := none }
  else if check_admin_auth sess = false then
    { status := 401, body := ScriptsRespBody.message "Unauthorized",
      store := store, notification := none }
  else
    let data := reqBody.getD []
    if method = Method.POST then
      if (hasKey data "title" && hasKey data "image" && hasKey data "key")
          = false then
        { status := 400, body := ScriptsRespBody.message "Missing required fields",
          store := store, notification := none }
      else
        let f : ScriptFields :=
          { title := (getVal data "title").getD "",
            image := (getVal data "image").getD "",
            key := (getVal data "key").getD "" }
        let newId := store.nextId
        { status := 201,
          body := ScriptsRespBody.created "Script added" (idToStr newId, f),
          store := { nextId := store.nextId + 1, docs := store.docs ++ [(newId, f)] },
          notification := some ("➕ *New Script Added:*\n`" ++ f.title ++ "`") }
    else if method = Method.PUT then
      if (hasKey data "title" && hasKey data "image" && hasKey data "key")
          = false then
        { status := 400, body := ScriptsRespBody.message "Missing required fields",
          store := store, notification := none }
      else
        match parseObjectId (script_id.getD "") with
        | none =>
          { status := 400, body := ScriptsRespBody.message "Invalid script ID format",
            store := store, notification := none }
        | some oid =>
          let f : ScriptFields :=
            { title := (getVal data "title").getD "",
              image := (getVal data "image").getD "",
              key := (getVal data "key").getD "" }
          let matched := store.docs.any (fun d => d.1 == oid)
          let docs1 := store.docs.map (fun d => if d.1 = oid then (d.1, f) else d)
          if matched = false then
            { status := 404, body := ScriptsRespBody.message "Script not found",
              store := { nextId := store.nextId, docs := docs1 },
              notification := none }
          else
            { status := 200, body := ScriptsRespBody.message "Script updated",
              store := { nextId := store.nextId, docs := docs1 },
              notification := some ("✏ *Script Updated:*\nID: `" ++
                script_id.getD "" ++ "`\nTitle: `" ++ f.title ++ "`") }
    else
      match parseObjectId (script_id.getD "") with
      | none =>
        { status := 400, body := ScriptsRespBody.message "Invalid script ID format",
          store := store, notification := none }
      | some oid =>
        let deleted := store.docs.any (fun d => d.1 == oid)
        let docs1 := store.docs.eraseP (fun d => d.1 == oid)
        if deleted = false then
          { status := 404, body := ScriptsRespBody.message "Script not found",
            store := { nextId := store.nextId, docs := docs1 },
            notification := none }
        else
          { status := 200, body := ScriptsRespBody.message "Script deleted",
            store := { nextId := store.nextId, docs := docs1 },
            notification := some ("🗑 *Script Deleted:*\nID: `" ++
              script_id.getD "" ++ "`") }

/-- JSON response body of the accounts handler. -/
inductive AccountsRespBody where
  | listing (items : List (String × AccountFields))
  | message (m : String)
  | created (m : String) (account : String × AccountFields)
deriving DecidableEq, Repr

/-- Result of one accounts request. -/
structure AccountsResult where
  status : Nat
  body : AccountsRespBody
  store : AccountStore
  notification : Option String
deriving DecidableEq, Repr

/-- The `accounts` route handler (`GET/POST /api/accounts`,
`PUT/DELETE /api/accounts/<account_id>`); listing is admin only. -/
def accounts (sess : Session) (store : AccountStore) (method : Method)
    (account_id : Option String) (reqBody : Option JsonBody) : AccountsResult :=
  if method = Method.GET then
    if check_admin_auth sess = false then
      { status := 401, body := AccountsRespBody.message "Unauthorized",
        store := store, notification := none }
    else
      { status := 200,
        body := AccountsRespBody.listing
          (store.docs.map (fun d => (idToStr d.1, d.2))),
        store := store, notification := none }
  else if check_admin_auth sess = false then
    { status := 401, body := AccountsRespBody.message "Unauthorized",
      store := store, notification := none }
  else
    let data := reqBody.getD []
    if method = Method.POST then
      if (hasKey data "name" && hasKey data "image" && hasKey data "username"
          && hasKey data "password") = false then
        { status := 400, body := AccountsRespBody.message "Missing required fields",
          store := store, notification := none }
      else
        let doc : AccountFields :=
          { name := (getVal data "name").getD "",
            image := (getVal data "image").getD "",
            username := (getVal data "username").getD "",
            password := (getVal data "password").getD "",
            accentColor := (getVal data "accentColor").getD "#0ea5e9" }
        let newId := store.nextId
        { status := 201,
          body := AccountsRespBody.created "Profile added" (idToStr newId, doc),
          store := { nextId := store.nextId + 1, docs := store.docs ++ [(newId, doc)] },
          notification := some ("👤 *New Profile Added:*\n" ++ doc.name ++
            " (@" ++ doc.username ++ ")") }
    else if method = Method.PUT then
      if (hasKey data "name" && hasKey data "image" && hasKey data "username"
          && hasKey data "password") = false then
        { status := 400, body := AccountsRespBody.message "Missing required fields",
          store := store, notification := none }
      else
        let doc : AccountFields :=
          { name := (getVal data "name").getD "",
            image := (getVal data "image").getD "",
            username := (getVal data "username").getD "",
            password := (getVal data "password").getD "",
            accentColor := (getVal data "accentColor").getD "#0ea5e9" }
        match parseObjectId (account_id.getD "") with
        | none =>
          { status := 400, body := AccountsRespBody.message "Invalid account ID format",
            store := store, notification := none }
        | some oid =>
          let matched := store.docs.any (fun d => d.1 == oid)
          let docs1 := store.docs.map (fun d => if d.1 = oid then (d.1, doc) else d)
          if matched = false then
            { status := 404, body := AccountsRespBody.message "Account not found",
              store := { nextId := store.nextId, docs := docs1 },
              notification := none }
          else
            { status := 200, body := AccountsRespBody.message "Profile updated",
              store := { nextId := store.nextId, docs := docs1 },
              notification := some ("📝 *Profile Updated:*\n" ++ doc.name ++
                " (@" ++ doc.username ++ ")") }
    else
      match parseObjectId (account_id.getD "") with
      | none =>
        { status := 400, body := AccountsRespBody.message "Invalid account ID format",
          store := store, notification := none }
      | some oid =>
        let deleted := store.docs.any (fun d => d.1 == oid)
        let docs1 := store.docs.eraseP (fun d => d.1 == oid)
        if deleted = false then
          { status := 404, body := AccountsRespBody.message "Account not found",
            store := { nextId := store.nextId, docs := docs1 },
            notification := none }
        else
          { status := 200, body := AccountsRespBody.message "Profile deleted",
            store := { nextId := store.nextId, docs := docs1 },
            notification := some ("🗑 *Profile Deleted:*\nID: `" ++
              account_id.getD "" ++ "`") }

/-- Result of a login request. -/
structure LoginResult where
  status : Nat
  success : Bool
  message : Option String
  sessionAfter : Session
  notification : Option String
deriving DecidableEq, Repr

/-- The `admin_login` handler (`POST /api/login`): compares the body's
`password` to the configured `ADMIN_PASSWORD` (both optional, as in Python
where either side may be `None`). -/
def admin_login (admin_password : Option String) (sess : Session)
    (reqBody : Option JsonBody) (remote_addr : String) : LoginResult :=
  let data := reqBody.getD []
  let password := getVal data "password"
  if password = admin_password then
    { status := 200, success := true, message := none,
      sessionAfter := { is_admin := true, permanent := true },
      notification := some ("🔐 *Admin Login Success!*\nIP: `" ++
        remote_addr ++ "`") }
  else
    { status := 401, success := false, message := some "Incorrect password",
      sessionAfter := sess, notification := none }

/-- The `logout` handler (`POST /api/logout`): `session.clear()`. -/
def logout (_sess : Session) : Session × Nat :=
  ({ is_admin := false, permanent := false }, 200)

/-- Substring test on character lists: does the pattern start the list. -/
def startsWithCh : List Char → List Char → Bool
  | [], _ => true
  | _ :: _, [] => false
  | p :: ps, c :: cs => p == c && startsWithCh ps cs

/-- Substring test on character lists: does the pattern occur anywhere. -/
def hasSubCh (pat : List Char) : List Char → Bool
  | [] => startsWithCh pat []
  | c :: cs => startsWithCh pat (c :: cs) || hasSubCh pat cs

/-- `strContains s pat` holds when `pat` occurs in `s` as a substring. -/
def strContains (s pat : String) : Bool :=
  hasSubCh pat.data s.data

/-- Well formed store: every stored script id came from the generator and
the generator stays inside the 24-hex-digit object id space. -/
def ScriptStore.wf (st : ScriptStore) : Prop :=
  (∀ d ∈ st.docs, d.1 < st.nextId) ∧ st.nextId < 16 ^ 24

/-! Helper lemmas about the id rendering and the substring test. -/

lemma hexVal_hexChar : ∀ n < 16, hexVal (hexChar n) = n := by decide

lemma hexFold_append (l : List Char) (c : Char) :
    hexFold (l ++ [c]) = hexFold l * 16 + hexVal c := by
  simp [hexFold, List.foldl_append]

lemma hexFold_toHexChList : ∀ w n, n < 16 ^ w → hexFold (toHexChList w n) = n := by
  intro w
  induction w with
  | zero =>
    intro n hn
    interval_cases n
    rfl
  | succ w ih =>
    intro n hn
    have hdiv : n / 16 < 16 ^ w := by
      have : n < 16 ^ w * 16 := by
        simpa [pow_succ] using hn
      omega
    have hmod : n % 16 < 16 := Nat.mod_lt _ (by omega)
    calc hexFold (toHexChList (w + 1) n)
        = hexFold (toHexChList w (n / 16) ++ [hexChar (n % 16)]) := rfl
      _ = hexFold (toHexChList w (n / 16)) * 16 + hexVal (hexChar (n % 16)) :=
          hexFold_append _ _
      _ = n / 16 * 16 + n % 16 := by
          rw [ih _ hdiv, hexVal_hexChar _ hmod]
      _ = n := by omega

lemma idToStr_inj {n m : Nat} (hn : n < 16 ^ 24) (hm : m < 16 ^ 24)
    (h : idToStr n = idToStr m) : n = m := by
  have hdata : toHexChList 24 n = toHexChList 24 m := by
    have := congrArg String.data h
    simpa [idToStr] using this
  have := congrArg hexFold hdata
  rwa [hexFold_toHexChList 24 n hn, hexFold_toHexChList 24 m hm] at this

lemma startsWithCh_append_self : ∀ p b : List Char, startsWithCh p (p ++ b) = true := by
  intro p
  induction p with
  | nil => intro b; rfl
  | cons c cs ih => intro b; simp [startsWithCh, ih]

lemma hasSubCh_append : ∀ (a p b : List Char), hasSubCh p (a ++ (p ++ b)) = true := by
  intro a
  induction a with
  | nil =>
    intro p b
    cases p with
    | nil => cases b <;> simp [hasSubCh, startsWithCh]
    | cons x xs =>
      have h : startsWithCh (x :: xs) ((x :: xs) ++ b) = true :=
        startsWithCh_append_self _ b
      simp only [List.cons_append] at h
      simp [hasSubCh, h]
  | cons c cs ih =>
    intro p b
    simp only [List.cons_append, hasSubCh]
    simp [ih p b]

lemma strContains_of_eq_append {s a pat c : String}
    (h : s = a ++ pat ++ c) : strContains s pat = true := by
  subst h
  have : (a ++ pat ++ c).data = a.data ++ (pat.data ++ c.data) := by
    simp [String.data_append, List.append_assoc]
  simp only [strContains, this]
  exact hasSubCh_append _ _ _

lemma update_docs_no_match {F : Type} (docs : List (Nat × F)) (oid : Nat) (f : F)
    (h : ∀ d ∈ docs, d.1 ≠ oid) :
    docs.map (fun d => if d.1 = oid then (d.1, f) else d) = docs := by
  induction docs with
  | nil => rfl
  | cons d ds ih =>
    have hd : d.1 ≠ oid := h d (List.mem_cons_self _ _)
    simp only [List.map_cons, if_neg hd]
    rw [ih (fun x hx => h x (List.mem_cons_of_mem _ hx))]

/-! Claim theorems. -/

/-- C2: without an admin session, GET /api/accounts returns 401 with only an
"Unauthorized" message (no account data) and touches no state, while
GET /api/scripts returns 200 with the full list of scripts, identifiers
coerced to strings, for every session, authenticated or not. -/
theorem c2_accounts_private_scripts_public
    (sess : Session) (ast : AccountStore) (sst : ScriptStore)
    (h : sess.is_admin = false) :
    (accounts sess ast Method.GET none none).status = 401 ∧
    (accounts sess ast Method.GET none none).body =
      AccountsRespBody.message "Unauthorized" ∧
    (accounts sess ast Method.GET none none).store = ast ∧
    ∀ s2 : Session,
      (scripts s2 sst Method.GET none none).status = 200 ∧
      (scripts s2 sst Method.GET none none).body =
        ScriptsRespBody.listing (sst.docs.map (fun d => (idToStr d.1, d.2))) := by
  refine ⟨?_, ?_, ?_, ?_⟩ <;>
    simp [accounts, scripts, check_admin_auth, h]

/-- Witness for C2 at a concrete anonymous session and concrete stores. -/
theorem c2_witness :
    (accounts ⟨false, false⟩ ⟨0, []⟩ Method.GET none none).status = 401 ∧
    (scripts ⟨false, false⟩ ⟨0, []⟩ Method.GET none none).status = 200 :=
  ⟨(c2_accounts_private_scripts_public ⟨false, false⟩ ⟨0, []⟩ ⟨0, []⟩ rfl).1,
   ((c2_accounts_private_scripts_public ⟨false, false⟩ ⟨0, []⟩ ⟨0, []⟩ rfl).2.2.2
     ⟨false, false⟩).1⟩

/-- C4: with a configured admin password, login with the exact password sets
the session admin flag and returns 200 success; any other password value
(including a missing one) returns 401 failure and leaves the session
unchanged. -/
theorem c4_login_exact_password
    (p : String) (sess : Session) (reqBody : Option JsonBody) (addr : String) :
    (getVal (reqBody.getD []) "password" = some p →
      (admin_login (some p) sess reqBody addr).status = 200 ∧
      (admin_login (some p) sess reqBody addr).success = true ∧
      (admin_login (some p) sess reqBody addr).sessionAfter.is_admin = true) ∧
    (getVal (reqBody.getD []) "password" ≠ some p →
      (admin_login (some p) sess reqBody addr).status = 401 ∧
      (admin_login (some p) sess reqBody addr).success = false ∧
      (admin_login (some p) sess reqBody addr).message =
        some "Incorrect password" ∧
      (admin_login (some p) sess reqBody addr).sessionAfter = sess) := by
  constructor
  · intro h
    simp [admin_login, h]
  · intro h
    simp [admin_login, h]

/-- Witness for C4: correct password "pw" succeeds, wrong password "no"
fails and keeps the anonymous session. -/
theorem c4_witness :
    (admin_login (some "pw") ⟨false, false⟩ (some [("password", "pw")]) "ip").status
      = 200 ∧
    (admin_login (some "pw") ⟨false, false⟩ (some [("password", "no")]) "ip").status
      = 401 ∧
    (admin_login (some "pw") ⟨false, false⟩ (some [("password", "no")]) "ip").sessionAfter
      = ⟨false, false⟩ :=
  ⟨((c4_login_exact_password "pw" ⟨false, false⟩ (some [("password", "pw")]) "ip").1
      (by decide)).1,
   ((c4_login_exact_password "pw" ⟨false, false⟩ (some [("password", "no")]) "ip").2
      (by decide)).1,
   ((c4_login_exact_password "pw" ⟨false, false⟩ (some [("password", "no")]) "ip").2
      (by decide)).2.2.2⟩

/-- C5: with the admin password unset (None), a login whose body has no
password field passes the equality check (None equals None), sets the admin
flag and returns 200 success. -/
theorem c5_unset_password_grants_admin
    (sess : Session) (reqBody : Option JsonBody) (addr : String)
    (h : getVal (reqBody.getD []) "password" = none) :
    (admin_login none sess reqBody addr).status = 200 ∧
    (admin_login none sess reqBody addr).success = true ∧
    (admin_login none sess reqBody addr).sessionAfter.is_admin = true := by
  simp [admin_login, h]

/-- Witness for C5 at an absent body. -/
theorem c5_witness :
    (admin_login none ⟨false, false⟩ none "ip").status = 200 ∧
    (admin_login none ⟨false, false⟩ none "ip").success = true ∧
    (admin_login none ⟨false, false⟩ none "ip").sessionAfter.is_admin = true :=
  c5_unset_password_grants_admin ⟨false, false⟩ none "ip" rfl

/-- C6: an authenticated create (script or account) with any required field
missing returns 400 "Missing required fields" and leaves the store exactly
as it was. -/
theorem c6_create_missing_field_fails
    (sess : Session) (sst : ScriptStore) (ast : AccountStore)
    (sb ab : Option JsonBody)
    (hadm : sess.is_admin = true)
    (hs : (hasKey (sb.getD []) "title" && hasKey (sb.getD []) "image" &&
           hasKey (sb.getD []) "key") = false)
    (ha : (hasKey (ab.getD []) "name" && hasKey (ab.getD []) "image" &&
           hasKey (ab.getD []) "username" && hasKey (ab.getD []) "password")
             = false) :
    (scripts sess sst Method.POST none sb).status = 400 ∧
    (scripts sess sst Method.POST none sb).body =
      ScriptsRespBody.message "Missing required fields" ∧
    (scripts sess sst Method.POST none sb).store = sst ∧
    (accounts sess ast Method.POST none ab).status = 400 ∧
    (accounts sess ast Method.POST none ab).body =
      AccountsRespBody.message "Missing required fields" ∧
    (accounts sess ast Method.POST none ab).store = ast := by
  refine ⟨?_, ?_, ?_, ?_, ?_, ?_⟩ <;>
    simp [scripts, accounts, check_admin_auth, hadm, hs, ha]

/-- Witness for C6: create requests with empty bodies fail with 400 and do
not change a one-element store. -/
theorem c6_witness :
    (scripts ⟨true, true⟩ ⟨1, [(0, ⟨"t", "i", "k"⟩)]⟩ Method.POST none
      (some [])).status = 400 ∧
    (scripts ⟨true, true⟩ ⟨1, [(0, ⟨"t", "i", "k"⟩)]⟩ Method.POST none
      (some [])).store = ⟨1, [(0, ⟨"t", "i", "k"⟩)]⟩ ∧
    (accounts ⟨true, true⟩ ⟨0, []⟩ Method.POST none (some [])).status = 400 :=
  ⟨(c6_create_missing_field_fails ⟨true, true⟩ ⟨1, [(0, ⟨"t", "i", "k"⟩)]⟩ ⟨0, []⟩
      (some []) (some []) rfl rfl rfl).1,
   (c6_create_missing_field_fails ⟨true, true⟩ ⟨1, [(0, ⟨"t", "i", "k"⟩)]⟩ ⟨0, []⟩
      (some []) (some []) rfl rfl rfl).2.2.1,
   (c6_create_missing_field_fails ⟨true, true⟩ ⟨1, [(0, ⟨"t", "i", "k"⟩)]⟩ ⟨0, []⟩
      (some []) (some []) rfl rfl rfl).2.2.2.1⟩

/-- C1 counterexample: an authenticated script create whose title, image and
key are all present but all the empty string is accepted with 201 and writes
to the store, where the claim demands a 400 with no store write. -/
theorem c1_counterexample :
    (scripts ⟨true, true⟩ ⟨0, []⟩ Method.POST none
      (some [("title", ""), ("image", ""), ("key", "")])).status = 201 ∧
    (scripts ⟨true, true⟩ ⟨0, []⟩ Method.POST none
      (some [("title", ""), ("image", ""), ("key", "")])).store.docs.length = 1 := by
  constructor
  · rfl
  · rfl

/-- C1 amended: on create and update the fields title, image and key are
required to be present: if any is absent the request fails with 400 and the
store is unchanged; but values are not checked for emptiness, so a request
with all three fields present, even as empty strings, is processed (a create
returns 201 and appends the record). -/
theorem c1_presence_only_validation
    (sess : Session) (sst : ScriptStore) (sid : String) (sb : Option JsonBody)
    (hadm : sess.is_admin = true) :
    ((hasKey (sb.getD []) "title" && hasKey (sb.getD []) "image" &&
      hasKey (sb.getD []) "key") = false →
      (scripts sess sst Method.POST none sb).status = 400 ∧
      (scripts sess sst Method.POST none sb).store = sst ∧
      (scripts sess sst Method.PUT (some sid) sb).status = 400 ∧
      (scripts sess sst Method.PUT (some sid) sb).store = sst) ∧
    ((hasKey (sb.getD []) "title" && hasKey (sb.getD []) "image" &&
      hasKey (sb.getD []) "key") = true →
      (scripts sess sst Method.POST none sb).status = 201 ∧
      (scripts sess sst Method.POST none sb).store.docs =
        sst.docs ++ [(sst.nextId,
          { title := (getVal (sb.getD []) "title").getD "",
            image := (getVal (sb.getD []) "image").getD "",
            key := (getVal (sb.getD []) "key").getD "" })]) := by
  constructor
  · intro h
    refine ⟨?_, ?_, ?_, ?_⟩ <;> simp [scripts, check_admin_auth, hadm, h]
  · intro h
    refine ⟨?_, ?_⟩ <;> simp [scripts, check_admin_auth, hadm, h]

/-- Witness for C1: a create missing the key field fails with 400, and a
create with all fields present but empty succeeds with 201. -/
theorem c1_witness :
    (scripts ⟨true, true⟩ ⟨0, []⟩ Method.POST none
      (some [("title", "a"), ("image", "b")])).status = 400 ∧
    (scripts ⟨true, true⟩ ⟨0, []⟩ Method.POST none
      (some [("title", ""), ("image", ""), ("key", "")])).status = 201 :=
  ⟨((c1_presence_only_validation ⟨true, true⟩ ⟨0, []⟩ "x"
      (some [("title", "a"), ("image", "b")]) rfl).1 (by decide)).1,
   ((c1_presence_only_validation ⟨true, true⟩ ⟨0, []⟩ "x"
      (some [("title", ""), ("image", ""), ("key", "")]) rfl).2 (by decide)).1⟩

/-- C7 counterexample: an authenticated script update with the malformed
identifier "xyz" and an empty body returns the ValidationError message
"Missing required fields", not the InvalidIdentifier message "Invalid script
ID format" that the claim demands for every malformed identifier. -/
theorem c7_counterexample :
    (scripts ⟨true, true⟩ ⟨0, []⟩ Method.PUT (some "xyz") (some [])).status
      = 400 ∧
    (scripts ⟨true, true⟩ ⟨0, []⟩ Method.PUT (some "xyz") (some [])).body =
      ScriptsRespBody.message "Missing required fields" ∧
    (scripts ⟨true, true⟩ ⟨0, []⟩ Method.PUT (some "xyz") (some [])).body ≠
      ScriptsRespBody.message "Invalid script ID format" := by
  refine ⟨rfl, rfl, ?_⟩
  decide

/-- C7 amended: with a malformed identifier, an authenticated DELETE always
returns 400 "Invalid ... ID format" with the store untouched, and an
authenticated PUT does so provided the required fields are present in the
body (field validation runs first: with fields missing the PUT returns 400
"Missing required fields" instead, still without any store operation). -/
theorem c7_invalid_id_rejected_before_store
    (sess : Session) (sst : ScriptStore) (ast : AccountStore)
    (sid aid : String) (sb ab : Option JsonBody)
    (hadm : sess.is_admin = true)
    (hsinv : parseObjectId sid = none) (hainv : parseObjectId aid = none) :
    ((scripts sess sst Method.DELETE (some sid) sb).status = 400 ∧
     (scripts sess sst Method.DELETE (some sid) sb).body =
       ScriptsRespBody.message "Invalid script ID format" ∧
     (scripts sess sst Method.DELETE (some sid) sb).store = sst) ∧
    ((accounts sess ast Method.DELETE (some aid) ab).status = 400 ∧
     (accounts sess ast Method.DELETE (some aid) ab).body =
       AccountsRespBody.message "Invalid account ID format" ∧
     (accounts sess ast Method.DELETE (some aid) ab).store = ast) ∧
    ((hasKey (sb.getD []) "title" && hasKey (sb.getD []) "image" &&
      hasKey (sb.getD []) "key") = true →
      (scripts sess sst Method.PUT (some sid) sb).status = 400 ∧
      (scripts sess sst Method.PUT (some sid) sb).body =
        ScriptsRespBody.message "Invalid script ID format" ∧
      (scripts sess sst Method.PUT (some sid) sb).store = sst) ∧
    ((hasKey (ab.getD []) "name" && hasKey (ab.getD []) "image" &&
      hasKey (ab.getD []) "username" && hasKey (ab.getD []) "password") = true →
      (accounts sess ast Method.PUT (some aid) ab).status = 400 ∧
      (accounts sess ast Method.PUT (some aid) ab).body =
        AccountsRespBody.message "Invalid account ID format" ∧
      (accounts sess ast Method.PUT (some aid) ab).store = ast) ∧
    ((scripts sess sst Method.PUT (some sid) sb).store = sst ∧
     (accounts sess ast Method.PUT (some aid) ab).store = ast) := by
  refine ⟨?_, ?_, ?_, ?_, ?_⟩
  · refine ⟨?_, ?_, ?_⟩ <;> simp [scripts, check_admin_auth, hadm, hsinv]
  · refine ⟨?_, ?_, ?_⟩ <;> simp [accounts, check_admin_auth, hadm, hainv]
  · intro h
    refine ⟨?_, ?_, ?_⟩ <;> simp [scripts, check_admin_auth, hadm, hsinv, h]
  · intro h
    refine ⟨?_, ?_, ?_⟩ <;> simp [accounts, check_admin_auth, hadm, hainv, h]
  · constructor
    · by_cases h : (hasKey (sb.getD []) "title" && hasKey (sb.getD []) "image" &&
        hasKey (sb.getD []) "key") = true
      · simp [scripts, check_admin_auth, hadm, hsinv, h]
      · simp only [Bool.not_eq_true] at h
        simp [scripts, check_admin_auth, hadm, h]
    · by_cases h : (hasKey (ab.getD []) "name" && hasKey (ab.getD []) "image" &&
        hasKey (ab.getD []) "username" && hasKey (ab.getD []) "password") = true
      · simp [accounts, check_admin_auth, hadm, hainv, h]
      · simp only [Bool.not_eq_true] at h
        simp [accounts, check_admin_auth, hadm, h]

/-- Witness for C7 at the malformed identifier "zz" with full fields. -/
theorem c7_witness :
    (scripts ⟨true, true⟩ ⟨0, []⟩ Method.DELETE (some "zz") none).status = 400 ∧
    (scripts ⟨true, true⟩ ⟨0, []⟩ Method.PUT (some "zz")
      (some [("title", "t"), ("image", "i"), ("key", "k")])).body =
      ScriptsRespBody.message "Invalid script ID format" :=
  ⟨(c7_invalid_id_rejected_before_store ⟨true, true⟩ ⟨0, []⟩ ⟨0, []⟩ "zz" "zz"
      none none rfl (by decide) (by decide)).1.1,
   ((c7_invalid_id_rejected_before_store ⟨true, true⟩ ⟨0, []⟩ ⟨0, []⟩ "zz" "zz"
      (some [("title", "t"), ("image", "i"), ("key", "k")]) none rfl
      (by decide) (by decide)).2.2.1 (by decide)).2.1⟩

/-- C8: an authenticated update with full required fields and a well formed
identifier matching no stored record returns 404 "not found", leaves the
store unchanged and sends no notification, for scripts and accounts alike. -/
theorem c8_update_nonexistent_not_found
    (sess : Session) (sst : ScriptStore) (ast : AccountStore)
    (sid aid : String) (soid aoid : Nat) (sb ab : JsonBody)
    (hadm : sess.is_admin = true)
    (hsk : (hasKey sb "title" && hasKey sb "image" && hasKey sb "key") = true)
    (hak : (hasKey ab "name" && hasKey ab "image" && hasKey ab "username" &&
      hasKey ab "password") = true)
    (hsp : parseObjectId sid = some soid)
    (hap : parseObjectId aid = some aoid)
    (hsm : ∀ d ∈ sst.docs, d.1 ≠ soid)
    (ham : ∀ d ∈ ast.docs, d.1 ≠ aoid) :
    (scripts sess sst Method.PUT (some sid) (some sb)).status = 404 ∧
    (scripts sess sst Method.PUT (some sid) (some sb)).body =
      ScriptsRespBody.message "Script not found" ∧
    (scripts sess sst Method.PUT (some sid) (some sb)).store = sst ∧
    (scripts sess sst Method.PUT (some sid) (some sb)).notification = none ∧
    (accounts sess ast Method.PUT (some aid) (some ab)).status = 404 ∧
    (accounts sess ast Method.PUT (some aid) (some ab)).body =
      AccountsRespBody.message "Account not found" ∧
    (accounts sess ast Method.PUT (some aid) (some ab)).store = ast ∧
    (accounts sess ast Method.PUT (some aid) (some ab)).notification = none := by
  have hsany : (sst.docs.any fun d => d.1 == soid) = false := by
    simp only [List.any_eq_false, beq_iff_eq]
    exact hsm
  have haany : (ast.docs.any fun d => d.1 == aoid) = false := by
    simp only [List.any_eq_false, beq_iff_eq]
    exact ham
  refine ⟨?_, ?_, ?_, ?_, ?_, ?_, ?_, ?_⟩ <;>
    simp [scripts, accounts, check_admin_auth, hadm, hsk, hak, hsp, hap,
      hsany, haany, update_docs_no_match _ _ _ hsm,
      update_docs_no_match _ _ _ ham]

/-- Witness for C8: the spec's example, PUT on the well formed identifier
"000000000000000000000000" against an empty accounts store, returns 404. -/
theorem c8_witness :
    (accounts ⟨true, true⟩ ⟨0, []⟩ Method.PUT
      (some "000000000000000000000000")
      (some [("name", "n"), ("image", "i"), ("username", "u"),
             ("password", "p")])).status = 404 ∧
    (accounts ⟨true, true⟩ ⟨0, []⟩ Method.PUT
      (some "000000000000000000000000")
      (some [("name", "n"), ("image", "i"), ("username", "u"),
             ("password", "p")])).store = ⟨0, []⟩ :=
  ⟨(c8_update_nonexistent_not_found ⟨true, true⟩ ⟨0, []⟩ ⟨0, []⟩
      "000000000000000000000000" "000000000000000000000000" 0 0
      [("title", "t"), ("image", "i"), ("key", "k")]
      [("name", "n"), ("image", "i"), ("username", "u"), ("password", "p")]
      rfl (by decide) (by decide) (by decide) (by decide)
      (by intro d hd; simp at hd) (by intro d hd; simp at hd)).2.2.2.2.1,
   (c8_update_nonexistent_not_found ⟨true, true⟩ ⟨0, []⟩ ⟨0, []⟩
      "000000000000000000000000" "000000000000000000000000" 0 0
      [("title", "t"), ("image", "i"), ("key", "k")]
      [("name", "n"), ("image", "i"), ("username", "u"), ("password", "p")]
      rfl (by decide) (by decide) (by decide) (by decide)
      (by intro d hd; simp at hd) (by intro d hd; simp at hd)).2.2.2.2.2.2.1⟩

/-- C9: a valid authenticated script create returns 201, a subsequent GET
lists the old records plus one whose fields equal the payload and whose
string identifier renders the newly generated id, and that identifier
differs from the string identifier of every record present before. -/
theorem c9_create_then_list
    (sess : Session) (sst : ScriptStore) (b : JsonBody) (t i k : String)
    (hadm : sess.is_admin = true)
    (hwf : sst.wf)
    (ht : getVal b "title" = some t) (hi : getVal b "image" = some i)
    (hk : getVal b "key" = some k) :
    (scripts sess sst Method.POST none (some b)).status = 201 ∧
    (∀ s2 : Session,
      (scripts s2 (scripts sess sst Method.POST none (some b)).store
          Method.GET none none).body =
        ScriptsRespBody.listing
          ((sst.docs ++ [(sst.nextId, ScriptFields.mk t i k)]).map
            (fun d => (idToStr d.1, d.2)))) ∧
    (idToStr sst.nextId, ScriptFields.mk t i k) ∈
      (sst.docs ++ [(sst.nextId, ScriptFields.mk t i k)]).map
        (fun d => (idToStr d.1, d.2)) ∧
    (∀ d ∈ sst.docs, idToStr d.1 ≠ idToStr sst.nextId) := by
  have hkk : (hasKey b "title" && hasKey b "image" && hasKey b "key") = true := by
    simp [hasKey, ht, hi, hk]
  refine ⟨?_, ?_, ?_, ?_⟩
  · simp [scripts, check_admin_auth, hadm, hkk]
  · intro s2
    simp [scripts, check_admin_auth, hadm, hkk, ht, hi, hk]
  · refine List.mem_map.mpr ⟨(sst.nextId, ScriptFields.mk t i k), ?_, rfl⟩
    exact List.mem_append.mpr (Or.inr (List.mem_singleton.mpr rfl))
  · intro d hd heq
    have hdlt : d.1 < sst.nextId := hwf.1 d hd
    have : d.1 = sst.nextId :=
      idToStr_inj (lt_trans hdlt hwf.2) hwf.2 heq
    omega

/-- Witness for C9: the spec's example payload created over a one-record
store lands in the listing under the fresh identifier. -/
theorem c9_witness :
    (scripts ⟨true, true⟩ ⟨1, [(0, ScriptFields.mk "a" "b" "c")]⟩ Method.POST none
      (some [("title", "Aimbot"), ("image", "http://x/y.png"),
             ("key", "ABC123")])).status = 201 ∧
    (idToStr 1, ScriptFields.mk "Aimbot" "http://x/y.png" "ABC123") ∈
      ([(0, ScriptFields.mk "a" "b" "c")] ++
        [(1, ScriptFields.mk "Aimbot" "http://x/y.png" "ABC123")]).map
        (fun d : Nat × ScriptFields => (idToStr d.1, d.2)) :=
  ⟨(c9_create_then_list ⟨true, true⟩ ⟨1, [(0, ScriptFields.mk "a" "b" "c")]⟩
      [("title", "Aimbot"), ("image", "http://x/y.png"), ("key", "ABC123")]
      "Aimbot" "http://x/y.png" "ABC123" rfl
      ⟨by decide, Nat.one_lt_pow (by decide) (by decide)⟩
      (by decide) (by decide) (by decide)).1,
   (c9_create_then_list ⟨true, true⟩ ⟨1, [(0, ScriptFields.mk "a" "b" "c")]⟩
      [("title", "Aimbot"), ("image", "http://x/y.png"), ("key", "ABC123")]
      "Aimbot" "http://x/y.png" "ABC123" rfl
      ⟨by decide, Nat.one_lt_pow (by decide) (by decide)⟩
      (by decide) (by decide) (by decide)).2.2.1⟩

/-- C10: a request whose body is absent or unparseable (modelled as `none`,
what `get_json(silent=True)` yields) is handled exactly like one carrying
the empty JSON object, and authenticated create and update requests without
a body therefore fail with 400 for missing required fields. -/
theorem c10_missing_body_as_empty_object
    (cfg : Option String) (sess : Session) (sst : ScriptStore)
    (ast : AccountStore) (mid : Option String) (m : Method) (addr : String)
    (hadm : sess.is_admin = true) :
    scripts sess sst m mid none = scripts sess sst m mid (some []) ∧
    accounts sess ast m mid none = accounts sess ast m mid (some []) ∧
    admin_login cfg sess none addr = admin_login cfg sess (some []) addr ∧
    (scripts sess sst Method.POST mid none).status = 400 ∧
    (scripts sess sst Method.PUT mid none).status = 400 ∧
    (accounts sess ast Method.POST mid none).status = 400 ∧
    (accounts sess ast Method.PUT mid none).status = 400 := by
  refine ⟨rfl, rfl, rfl, ?_, ?_, ?_, ?_⟩ <;>
    simp [scripts, accounts, check_admin_auth, hadm, hasKey, getVal]

/-- Witness for C10 at concrete session, stores and method. -/
theorem c10_witness :
    scripts ⟨true, true⟩ ⟨0, []⟩ Method.POST none none =
      scripts ⟨true, true⟩ ⟨0, []⟩ Method.POST none (some []) ∧
    (scripts ⟨true, true⟩ ⟨0, []⟩ Method.POST none none).status = 400 :=
  ⟨(c10_missing_body_as_empty_object none ⟨true, true⟩ ⟨0, []⟩ ⟨0, []⟩ none
      Method.POST "ip" rfl).1,
   (c10_missing_body_as_empty_object none ⟨true, true⟩ ⟨0, []⟩ ⟨0, []⟩ none
      Method.POST "ip" rfl).2.2.2.1⟩

/-- C3 counterexample: a successful account delete (status 200) sends a
notification that carries only the identifier, so it contains neither the
deleted account's name "Alice Wonder" nor its username "wland", though the
claim demands both for every successful delete. -/
theorem c3_counterexample :
    (accounts ⟨true, true⟩
      ⟨1, [(0, AccountFields.mk "Alice Wonder" "img" "wland" "s3cret" "#0ea5e9")]⟩
      Method.DELETE (some "000000000000000000000000") none).status = 200 ∧
    (accounts ⟨true, true⟩
      ⟨1, [(0, AccountFields.mk "Alice Wonder" "img" "wland" "s3cret" "#0ea5e9")]⟩
      Method.DELETE (some "000000000000000000000000") none).notification =
      some "🗑 *Profile Deleted:*\nID: `000000000000000000000000`" ∧
    strContains "🗑 *Profile Deleted:*\nID: `000000000000000000000000`"
      "Alice Wonder" = false ∧
    strContains "🗑 *Profile Deleted:*\nID: `000000000000000000000000`"
      "wland" = false := by
  refine ⟨rfl, ?_, ?_, ?_⟩ <;> decide

/-- C3 amended: successful account create and update notifications contain
the account's name and username and are identical for two runs differing
only in the password value; the successful delete notification consists of
the identifier alone (so it carries neither name, username nor password). -/
theorem c3_notification_content
    (sess : Session) (ast : AccountStore) (b b2 : JsonBody)
    (aid : String) (oid : Nat) (nm un : String)
    (hadm : sess.is_admin = true) :
    (getVal b "name" = some nm → getVal b "username" = some un →
     hasKey b "image" = true → hasKey b "password" = true →
      (accounts sess ast Method.POST none (some b)).notification =
        some ("👤 *New Profile Added:*\n" ++ nm ++ " (@" ++ un ++ ")") ∧
      strContains ("👤 *New Profile Added:*\n" ++ nm ++ " (@" ++ un ++ ")")
        nm = true ∧
      strContains ("👤 *New Profile Added:*\n" ++ nm ++ " (@" ++ un ++ ")")
        un = true) ∧
    (getVal b "name" = some nm → getVal b "username" = some un →
     hasKey b "image" = true → hasKey b "password" = true →
     parseObjectId aid = some oid →
     (ast.docs.any fun d => d.1 == oid) = true →
      (accounts sess ast Method.PUT (some aid) (some b)).notification =
        some ("📝 *Profile Updated:*\n" ++ nm ++ " (@" ++ un ++ ")") ∧
      strContains ("📝 *Profile Updated:*\n" ++ nm ++ " (@" ++ un ++ ")")
        nm = true ∧
      strContains ("📝 *Profile Updated:*\n" ++ nm ++ " (@" ++ un ++ ")")
        un = true) ∧
    (parseObjectId aid = some oid →
     (ast.docs.any fun d => d.1 == oid) = true →
      (accounts sess ast Method.DELETE (some aid) none).notification =
        some ("🗑 *Profile Deleted:*\nID: `" ++ aid ++ "`")) ∧
    ((∀ kk : String, kk ≠ "password" → getVal b kk = getVal b2 kk) →
     hasKey b "password" = true → hasKey b2 "password" = true →
      (accounts sess ast Method.POST none (some b)).notification =
        (accounts sess ast Method.POST none (some b2)).notification ∧
      (accounts sess ast Method.PUT (some aid) (some b)).notification =
        (accounts sess ast Method.PUT (some aid) (some b2)).notification) := by
  refine ⟨?_, ?_, ?_, ?_⟩
  · intro hnm hun him hpw
    have hknm : hasKey b "name" = true := by simp [hasKey, hnm]
    have hkun : hasKey b "username" = true := by simp [hasKey, hun]
    refine ⟨?_, ?_, ?_⟩
    · simp [accounts, check_admin_auth, hadm, hknm, hkun, him, hpw, hnm, hun]
    · exact strContains_of_eq_append
        (a := "👤 *New Profile Added:*\n") (c := " (@" ++ un ++ ")")
        (by simp [String.append_assoc])
    · exact strContains_of_eq_append
        (a := "👤 *New Profile Added:*\n" ++ nm ++ " (@") (c := ")")
        (by simp [String.append_assoc])
  · intro hnm hun him hpw hpid hmat
    have hknm : hasKey b "name" = true := by simp [hasKey, hnm]
    have hkun : hasKey b "username" = true := by simp [hasKey, hun]
    refine ⟨?_, ?_, ?_⟩
    · simp [accounts, check_admin_auth, hadm, hknm, hkun, him, hpw, hnm, hun,
        hpid, hmat]
    · exact strContains_of_eq_append
        (a := "📝 *Profile Updated:*\n") (c := " (@" ++ un ++ ")")
        (by simp [String.append_assoc])
    · exact strContains_of_eq_append
        (a := "📝 *Profile Updated:*\n" ++ nm ++ " (@") (c := ")")
        (by simp [String.append_assoc])
  · intro hpid hmat
    simp [accounts, check_admin_auth, hadm, hpid, hmat]
  · intro hk hpw hpw2
    have hnm : getVal b "name" = getVal b2 "name" := hk _ (by decide)
    have him : getVal b "image" = getVal b2 "image" := hk _ (by decide)
    have hun : getVal b "username" = getVal b2 "username" := hk _ (by decide)
    have hac : getVal b "accentColor" = getVal b2 "accentColor" :=
      hk _ (by decide)
    have hknm : hasKey b "name" = hasKey b2 "name" := by simp [hasKey, hnm]
    have hkim : hasKey b "image" = hasKey b2 "image" := by simp [hasKey, him]
    have hkun : hasKey b "username" = hasKey b2 "username" := by
      simp [hasKey, hun]
    constructor
    · by_cases hc : (hasKey b2 "name" && hasKey b2 "image" &&
        hasKey b2 "username" && hasKey b2 "password") = true
      · simp only [Bool.and_eq_true] at hc
        obtain ⟨⟨⟨hcn, hci⟩, hcu⟩, hcp⟩ := hc
        simp [accounts, check_admin_auth, hadm, hknm, hkim, hkun, hpw, hpw2,
          hcn, hci, hcu, hcp, hnm, hun]
      · simp only [Bool.not_eq_true] at hc
        have hc1 : (hasKey b "name" && hasKey b "image" &&
            hasKey b "username" && hasKey b "password") = false := by
          rw [hknm, hkim, hkun, hpw]
          rwa [hpw2] at hc
        simp [accounts, check_admin_auth, hadm, hc1, hc]
    · by_cases hc : (hasKey b2 "name" && hasKey b2 "image" &&
        hasKey b2 "username" && hasKey b2 "password") = true
      · simp only [Bool.and_eq_true] at hc
        obtain ⟨⟨⟨hcn, hci⟩, hcu⟩, hcp⟩ := hc
        rcases hpid : parseObjectId aid with _ | oid2
        · simp [accounts, check_admin_auth, hadm, hknm, hkim, hkun, hpw, hpw2,
            hcn, hci, hcu, hcp, hpid]
        · by_cases hmat : (ast.docs.any fun d => d.1 == oid2) = true
          · simp [accounts, check_admin_auth, hadm, hknm, hkim, hkun, hpw,
              hpw2, hcn, hci, hcu, hcp, hpid, hmat, hnm, hun]
          · simp only [Bool.not_eq_true] at hmat
            simp [accounts, check_admin_auth, hadm, hknm, hkim, hkun, hpw,
              hpw2, hcn, hci, hcu, hcp, hpid, hmat]
      · simp only [Bool.not_eq_true] at hc
        have hc1 : (hasKey b "name" && hasKey b "image" &&
            hasKey b "username" && hasKey b "password") = false := by
          rw [hknm, hkim, hkun, hpw]
          rwa [hpw2] at hc
        simp [accounts, check_admin_auth, hadm, hc1, hc]

/-- Witness for C3: a concrete create notification carries name and
username, and two creates differing only in the password notify alike. -/
theorem c3_witness :
    (accounts ⟨true, true⟩ ⟨0, []⟩ Method.POST none
      (some [("name", "Bob"), ("image", "i"), ("username", "bob1"),
             ("password", "p1")])).notification =
      some ("👤 *New Profile Added:*\n" ++ "Bob" ++ " (@" ++ "bob1" ++ ")") ∧
    (accounts ⟨true, true⟩ ⟨0, []⟩ Method.POST none
      (some [("name", "Bob"), ("image", "i"), ("username", "bob1"),
             ("password", "p1")])).notification =
      (accounts ⟨true, true⟩ ⟨0, []⟩ Method.POST none
        (some [("name", "Bob"), ("image", "i"), ("username", "bob1"),
               ("password", "p2")])).notification :=
  ⟨((c3_notification_content ⟨true, true⟩ ⟨0, []⟩
      [("name", "Bob"), ("image", "i"), ("username", "bob1"), ("password", "p1")]
      [("name", "Bob"), ("image", "i"), ("username", "bob1"), ("password", "p2")]
      "000000000000000000000000" 0 "Bob" "bob1" rfl).1
      (by decide) (by decide) (by decide) (by decide)).1,
   ((c3_notification_content ⟨true, true⟩ ⟨0, []⟩
      [("name", "Bob"), ("image", "i"), ("username", "bob1"), ("password", "p1")]
      [("name", "Bob"), ("image", "i"), ("username", "bob1"), ("password", "p2")]
      "000000000000000000000000" 0 "Bob" "bob1" rfl).2.2.2
      (fun kk hkk => by
        have h : (("password" : String) == kk) = false := by
          simp only [beq_eq_false_iff_ne, ne_eq]
          exact fun h => hkk h.symm
        simp [getVal, List.find?, h])
      (by decide) (by decide)).1⟩

end Nhoy
